import Mathlib

/-!
Shallow embedding of the two source artifacts of this repository.

First, src/components/graphql/QueryEditor.vue, the GraphQL query editor
component. Pure data is embedded directly; a JS exception is embedded as the
error side of an Except value; the JS expression that reads the first element
of a missing location list (e.locations[0].line on an error without locations)
is embedded as a thrown TypeError value. The external collaborators gql.parse,
gql.validate, gql.print and getAutocompleteSuggestions are black boxes behind a
record of functions that the theorems quantify over. The debounce helper lives
outside src and is modelled from the spec (trailing edge, a single pending
timer, the latest argument wins): a call to the wrapped method stores the
pending argument, and the elapse of the debounce window runs the body once on
the stored argument.

Second, src/firestore.rules, the access policy. The rules language is
evaluated by the hosted service with its documented semantics: a request is
allowed when the condition of at least one allow statement of at least one
matching match block holds. Overlapping match blocks are disjunctive, with no
precedence by specificity, and a write grant covers create, update and delete.
-/

namespace GQLEditor

/-- A 1-based source location, as the GraphQL library reports locations. -/
structure Loc where
  line : Nat
  column : Nat
deriving DecidableEq

/-- A GraphQL error value: a message and the list of source locations carried
by the JS error object. The empty list embeds a JS error whose locations field
is undefined or empty. -/
structure GqlError where
  locations : List Loc
  message : String
deriving DecidableEq

/-- An editor diagnostic, as handed to the ace session by the component; the
source field named type (the severity) is called kind here. -/
structure Diag where
  row : Nat
  column : Nat
  text : String
  kind : String
deriving DecidableEq

/-- One autocompletion suggestion as returned by the language service. -/
structure Suggestion where
  label : String
  detail : String
deriving DecidableEq

/-- One ace completion item as built by the local completer. -/
structure CompletionItem where
  name : String
  value : String
  score : Nat
  meta : String
deriving DecidableEq

/-- The external GraphQL collaborators behind their narrow interface. Parsing
and printing may fail; the validator returns a list of validation errors and
may itself throw (its throw is the error side of its Except). -/
structure GqlService (Schema Doc : Type) where
  parse : String → Except GqlError Doc
  validate : Schema → Doc → Except GqlError (List GqlError)
  printDoc : Doc → Except GqlError String
  suggest : Schema → String → Loc → List Suggestion

/-- The component state: the data fields of the Vue component together with
the observable outputs (emitted events, toast count) and the pending debounced
call. -/
structure EditorState (Schema : Type) where
  ready : Bool
  buffer : String
  cacheValue : String
  validationSchema : Option Schema
  diags : List Diag
  pendingParse : Option String
  emittedInput : List String
  emittedUpdateQuery : List String
  toasts : Nat

/-- The diagnostic the component builds from a 1-based location and a message:
row and column are the reported location minus one, the severity is error. -/
def mkDiag (l : Loc) (msg : String) : Diag :=
  { row := l.line - 1, column := l.column - 1, text := msg, kind := "error" }

/-- The synthetic error raised by reading the first location of an error that
has none: the JS TypeError thrown by e.locations[0].line. -/
def locTypeError : GqlError :=
  { locations := [], message := "TypeError" }

/-- The mapping over validation errors inside the try block of parseContents:
one diagnostic per error, built from its first location; an error without any
location throws at the first such element, as the JS map does. -/
def toDiags : List GqlError → Except GqlError (List Diag)
  | [] => .ok []
  | e :: rest =>
    match e.locations with
    | l :: _ => (toDiags rest).map fun ds => mkDiag l e.message :: ds
    | [] => .error locTypeError

/-- The catch clause of parseContents: build a singleton diagnostic from the
first location of the caught error; when the caught error has no location the
clause itself throws a TypeError, which escapes to the host. -/
def catchClause {Schema : Type} (e : GqlError) (s : EditorState Schema) :
    Except GqlError (EditorState Schema) :=
  match e.locations with
  | l :: _ => .ok { s with diags := [mkDiag l e.message] }
  | [] => .error locTypeError

/-- The body of parseContents, the function wrapped by debounce. Nonempty
content is parsed; on success with a schema installed the mapped validation
errors replace the diagnostics; on success without a schema nothing is
written; every error thrown inside the try block reaches the catch clause;
empty content clears the diagnostics. -/
def parseContentsBody {Schema Doc : Type} (svc : GqlService Schema Doc)
    (content : String) (s : EditorState Schema) :
    Except GqlError (EditorState Schema) :=
  if content ≠ "" then
    match svc.parse content with
    | .ok doc =>
      match s.validationSchema with
      | some sch =>
        match svc.validate sch doc with
        | .ok verrs =>
          match toDiags verrs with
          | .ok ds => .ok { s with diags := ds }
          | .error e => catchClause e s
        | .error e => catchClause e s
      | none => .ok s
    | .error e => catchClause e s
  else
    .ok { s with diags := [] }

/-- Modelled from the spec: the debounce helper (helpers/utils/debounce, which
is outside src) is a trailing-edge debounce with a single pending timer; a
call to the wrapped method cancels the pending timer and stores the latest
argument. -/
def parseContentsCall {Schema : Type} (content : String)
    (s : EditorState Schema) : EditorState Schema :=
  { s with pendingParse := some content }

/-- Modelled from the spec: when the debounce window elapses with a call
pending, the body runs once on the stored argument. -/
def debounceElapse {Schema Doc : Type} (svc : GqlService Schema Doc)
    (s : EditorState Schema) : Except GqlError (EditorState Schema) :=
  match s.pendingParse with
  | some c => parseContentsBody svc c { s with pendingParse := none }
  | none => .ok s

/-- The setValidationSchema method: store the schema, then call the debounced
parseContents on the cached value. -/
def setValidationSchema {Schema : Type} (sch : Schema)
    (s : EditorState Schema) : EditorState Schema :=
  parseContentsCall s.cacheValue { s with validationSchema := some sch }

/-- The watcher on the value prop: replace the buffer and update the cache
only when the new value differs from the cached one; otherwise do nothing. -/
def watchValue {Schema : Type} (v : String) (s : EditorState Schema) :
    EditorState Schema :=
  if v ≠ s.cacheValue then
    { s with buffer := v, cacheValue := v }
  else
    s

/-- The change listener: with the buffer holding the new content, emit the
input event, call the debounced parseContents and cache the content. -/
def applyChange {Schema : Type} (content : String) (s : EditorState Schema) :
    EditorState Schema :=
  parseContentsCall content
    { s with buffer := content,
             emittedInput := s.emittedInput ++ [content],
             cacheValue := content }

/-- The prettifyQuery method: print the parse of the buffer and emit the
result as the update-query event; on any failure show one error toast and
change nothing else. -/
def prettifyQuery {Schema Doc : Type} (svc : GqlService Schema Doc)
    (s : EditorState Schema) : EditorState Schema :=
  match svc.parse s.buffer with
  | .ok doc =>
    match svc.printDoc doc with
    | .ok t => { s with emittedUpdateQuery := s.emittedUpdateQuery ++ [t] }
    | .error _ => { s with toasts := s.toasts + 1 }
  | .error _ => { s with toasts := s.toasts + 1 }

/-- The local completer: with a schema installed, map the language service
suggestions at the cursor to completion items with score one; without a
schema, call back with no error and the empty list. -/
def getCompletions {Schema Doc : Type} (svc : GqlService Schema Doc)
    (s : EditorState Schema) (pos : Loc) :
    Except GqlError (List CompletionItem) :=
  match s.validationSchema with
  | some sch =>
    .ok ((svc.suggest sch s.buffer pos).map fun sug =>
      { name := sug.label, value := sug.label, score := 1, meta := sug.detail })
  | none => .ok []

/-- The first location of an error, with a default; only used under the
hypothesis that the location list is nonempty. -/
def firstLocD (e : GqlError) : Loc :=
  e.locations.headD { line := 0, column := 0 }

/-- A fresh component state over a unit schema type, for concrete instances. -/
def baseState : EditorState Unit :=
  { ready := true, buffer := "", cacheValue := "", validationSchema := none,
    diags := [], pendingParse := none, emittedInput := [],
    emittedUpdateQuery := [], toasts := 0 }

/-- A stale diagnostic left over from an earlier pass. -/
def staleDiag : Diag :=
  { row := 0, column := 0, text := "old", kind := "error" }

/-- A service whose parser accepts everything and whose validator finds no
errors. -/
def okSvc : GqlService Unit Unit :=
  { parse := fun _ => .ok (), validate := fun _ _ => .ok [],
    printDoc := fun _ => .ok "", suggest := fun _ _ _ => [] }

/-- A validation error located at line two, column five. -/
def vErr : GqlError :=
  { locations := [{ line := 2, column := 5 }], message := "Unknown field" }

/-- A service whose validator reports the single located error vErr. -/
def validatingSvc : GqlService Unit Unit :=
  { parse := fun _ => .ok (), validate := fun _ _ => .ok [vErr],
    printDoc := fun _ => .ok "", suggest := fun _ _ _ => [] }

/-- A parse error located at line three, column seven. -/
def parseErr : GqlError :=
  { locations := [{ line := 3, column := 7 }], message := "Syntax Error" }

/-- A service whose parser always fails with parseErr. -/
def failingSvc : GqlService Unit Unit :=
  { parse := fun _ => .error parseErr, validate := fun _ _ => .ok [],
    printDoc := fun _ => .ok "", suggest := fun _ _ _ => [] }

/-- An error thrown without any source location, as the validator throws on an
invalid schema object. -/
def unlocatedErr : GqlError :=
  { locations := [], message := "Expected a GraphQL schema" }

/-- A service whose validator throws the unlocated error. -/
def throwingSvc : GqlService Unit Unit :=
  { parse := fun _ => .ok (), validate := fun _ _ => .error unlocatedErr,
    printDoc := fun _ => .ok "", suggest := fun _ _ _ => [] }

/-- A service whose validator throws the located error vErr. -/
def locThrowSvc : GqlService Unit Unit :=
  { parse := fun _ => .ok (), validate := fun _ _ => .error vErr,
    printDoc := fun _ => .ok "", suggest := fun _ _ _ => [] }

/-- An identity service over string documents: parsing returns the text and
printing returns the document, so every text is canonical. -/
def idSvc : GqlService Unit String :=
  { parse := fun t => .ok t, validate := fun _ _ => .ok [],
    printDoc := fun d => .ok d, suggest := fun _ _ _ => [] }

/-- A state with a stale diagnostic displayed and no schema installed. -/
def c2State : EditorState Unit :=
  { baseState with diags := [staleDiag] }

/-- A state whose buffer and cache hold the one-letter content q. -/
def c3State : EditorState Unit :=
  { baseState with buffer := "q", cacheValue := "q" }

/-- A state with a schema installed and a stale diagnostic displayed. -/
def c5State : EditorState Unit :=
  { baseState with validationSchema := some (), diags := [staleDiag] }

/-- A state with a schema installed. -/
def c8State : EditorState Unit :=
  { baseState with validationSchema := some () }

/-- A state holding a canonical buffer for the idempotence instance. -/
def c9State : EditorState Unit :=
  { baseState with buffer := "query q" }

end GQLEditor

namespace Firestore

/-- The operations a rules request can carry; a write grant in an allow
statement covers create, update and delete, a read grant covers read. -/
inductive Op where
  | read
  | create
  | update
  | delete
deriving DecidableEq

/-- The catch-all rule of src/firestore.rules (lines 3 to 5): match on any
document path, allow read and write when the request carries an authenticated
uid. Read and write together cover every operation, so the operation is not
inspected. An unauthenticated request makes the condition error out, which the
service treats as false. -/
def catchAllAllows (authUid : Option String) (path : List String)
    (_op : Op) : Bool :=
  !path.isEmpty && authUid.isSome

/-- The user-document rule of src/firestore.rules (lines 9 to 12): match on
the literal segment users followed by one wildcard segment bound to userId;
read, update and delete need the authenticated uid to equal userId, while
create only needs an authenticated uid. -/
def userRuleAllows (authUid : Option String) (path : List String)
    (op : Op) : Bool :=
  match path with
  | [seg, userId] =>
    seg == "users" &&
      (match op with
       | Op.read | Op.update | Op.delete => authUid == some userId
       | Op.create => authUid.isSome)
  | _ => false

/-- The deployed policy under the hosted evaluation semantics: a request is
allowed when the condition of any allow statement of any matching match block
holds; overlapping blocks are disjunctive and no block takes precedence. -/
def allows (authUid : Option String) (path : List String) (op : Op) : Bool :=
  catchAllAllows authUid path op || userRuleAllows authUid path op

end Firestore

namespace GQLEditor

/-- Helper: when every validation error carries at least one location, the
mapping over them succeeds and yields one diagnostic per error, built from its
first location. -/
theorem toDiags_all_located (verrs : List GqlError)
    (h : ∀ e ∈ verrs, e.locations ≠ []) :
    toDiags verrs = .ok (verrs.map fun e => mkDiag (firstLocD e) e.message) := by
  induction verrs with
  | nil => rfl
  | cons e rest ih =>
    cases hl : e.locations with
    | nil => exact absurd hl (h e (List.mem_cons_self e rest))
    | cons l ls =>
      have hrest := ih fun x hx => h x (List.mem_cons_of_mem e hx)
      simp [toDiags, hl, hrest, firstLocD, Except.map]

/-- Claim C2 counterexample: nonempty content that parses, no schema
installed, a stale diagnostic displayed before the pass: after the debounce
window elapses the displayed list still holds the stale diagnostic, so it is
not empty. -/
theorem stale_diagnostic_survives :
    (debounceElapse okSvc (parseContentsCall "q" c2State)).map
        EditorState.diags = .ok [staleDiag] ∧
      ([staleDiag] : List Diag) ≠ [] :=
  ⟨rfl, List.cons_ne_nil _ _⟩

/-- Claim C2 amended: for nonempty content that parses, with no schema
installed, the pass that runs when the debounce window elapses returns the
state unchanged, so the displayed diagnostics are exactly what was displayed
before the pass, empty precisely when they were empty before. -/
theorem schemaless_pass_preserves_diags {Schema Doc : Type}
    (svc : GqlService Schema Doc) (content : String) (s : EditorState Schema)
    (doc : Doc) (hne : content ≠ "") (hp : svc.parse content = .ok doc)
    (hs : s.validationSchema = none) :
    debounceElapse svc (parseContentsCall content s) =
      .ok { s with pendingParse := none } := by
  simp [debounceElapse, parseContentsCall, parseContentsBody, hne, hp, hs]

/-- Claim C2 amended, witness at a concrete service and state. -/
theorem schemaless_pass_preserves_diags_witness :
    debounceElapse okSvc (parseContentsCall "q" c2State) =
      .ok { c2State with pendingParse := none } :=
  schemaless_pass_preserves_diags okSvc "q" c2State () (by decide) rfl rfl

/-- Claim C3 counterexample: right after setValidationSchema the displayed
diagnostics are still the old ones (empty here) and not the validation result;
the validation diagnostic appears only once the debounce window elapses. -/
theorem set_schema_not_immediate :
    (setValidationSchema () c3State).diags = [] ∧
      (setValidationSchema () c3State).diags ≠
        [mkDiag { line := 2, column := 5 } "Unknown field"] ∧
      (debounceElapse validatingSvc (setValidationSchema () c3State)).map
          EditorState.diags =
        .ok [mkDiag { line := 2, column := 5 } "Unknown field"] :=
  ⟨rfl, by decide, rfl⟩

/-- Claim C3 amended: setValidationSchema installs the schema and schedules
the debounced parse of the cached value: the displayed diagnostics are
unchanged at call time, a pass on the cached value is pending, and when the
debounce window elapses that pass runs against the new schema. -/
theorem set_schema_schedules_revalidation {Schema Doc : Type}
    (svc : GqlService Schema Doc) (sch : Schema) (s : EditorState Schema) :
    (setValidationSchema sch s).validationSchema = some sch ∧
      (setValidationSchema sch s).diags = s.diags ∧
      (setValidationSchema sch s).pendingParse = some s.cacheValue ∧
      debounceElapse svc (setValidationSchema sch s) =
        parseContentsBody svc s.cacheValue
          { s with validationSchema := some sch, pendingParse := none } :=
  ⟨rfl, rfl, rfl, rfl⟩

/-- Claim C4: on nonempty content whose parse fails with a reported first
location, the pass running after the debounce window replaces the displayed
diagnostics with exactly one diagnostic at the reported location minus one,
carrying the parse error message, with error severity. -/
theorem parse_error_singleton_diag {Schema Doc : Type}
    (svc : GqlService Schema Doc) (content : String) (s : EditorState Schema)
    (e : GqlError) (l : Loc) (rest : List Loc)
    (hne : content ≠ "") (hp : svc.parse content = .error e)
    (hl : e.locations = l :: rest) :
    debounceElapse svc (parseContentsCall content s) =
      .ok { s with pendingParse := none,
                   diags := [{ row := l.line - 1, column := l.column - 1,
                               text := e.message, kind := "error" }] } := by
  simp [debounceElapse, parseContentsCall, parseContentsBody, catchClause,
        mkDiag, hne, hp, hl]

/-- Claim C4 witness: the failing parser service on content q, with a stale
diagnostic displayed beforehand. -/
theorem parse_error_singleton_diag_witness :
    debounceElapse failingSvc (parseContentsCall "q" c2State) =
      .ok { c2State with
              pendingParse := none,
              diags := [{ row := 2, column := 6, text := "Syntax Error",
                          kind := "error" }] } :=
  parse_error_singleton_diag failingSvc "q" c2State parseErr
    { line := 3, column := 7 } [] (by decide) rfl rfl

/-- Claim C5: on nonempty content that parses, with a schema installed, when
the validator returns its error list and every error carries a location, the
pass running after the debounce window replaces the displayed diagnostics with
one diagnostic per validation error, at its first reported location minus one,
carrying its message. -/
theorem validation_errors_mapped {Schema Doc : Type}
    (svc : GqlService Schema Doc) (content : String) (s : EditorState Schema)
    (doc : Doc) (sch : Schema) (verrs : List GqlError)
    (hne : content ≠ "") (hp : svc.parse content = .ok doc)
    (hs : s.validationSchema = some sch) (hv : svc.validate sch doc = .ok verrs)
    (hloc : ∀ e ∈ verrs, e.locations ≠ []) :
    debounceElapse svc (parseContentsCall content s) =
      .ok { s with pendingParse := none,
                   diags := verrs.map fun e =>
                     { row := (firstLocD e).line - 1,
                       column := (firstLocD e).column - 1,
                       text := e.message, kind := "error" } } := by
  have hmap := toDiags_all_located verrs hloc
  simp [debounceElapse, parseContentsCall, parseContentsBody, hne, hp, hs, hv,
        hmap, mkDiag]

/-- Claim C5 witness: the validating service reporting one located error, on
content q with a schema installed and a stale diagnostic displayed. -/
theorem validation_errors_mapped_witness :
    debounceElapse validatingSvc (parseContentsCall "q" c5State) =
      .ok { c5State with
              pendingParse := none,
              diags := [{ row := 1, column := 4, text := "Unknown field",
                          kind := "error" }] } :=
  validation_errors_mapped validatingSvc "q" c5State () () [vErr]
    (by decide) rfl rfl rfl (by decide)

/-- Claim C6: when parsing the buffer fails, or it parses and printing fails,
prettifyQuery only increments the toast counter: no update-query event is
emitted, the buffer, cache and diagnostics are unchanged, and no exception
escapes, the method being total. -/
theorem prettify_failure_only_toasts {Schema Doc : Type}
    (svc : GqlService Schema Doc) (s : EditorState Schema)
    (h : ∀ doc, svc.parse s.buffer = .ok doc →
      ∃ e, svc.printDoc doc = .error e) :
    prettifyQuery svc s = { s with toasts := s.toasts + 1 } := by
  unfold prettifyQuery
  cases hp : svc.parse s.buffer with
  | error e => rfl
  | ok doc =>
    obtain ⟨e2, he2⟩ := h doc hp
    simp [he2]

/-- Claim C6 witness: the failing parser service on the base state. -/
theorem prettify_failure_only_toasts_witness :
    prettifyQuery failingSvc baseState =
      { baseState with toasts := baseState.toasts + 1 } :=
  prettify_failure_only_toasts failingSvc baseState
    (fun _doc h => Except.noConfusion h)

/-- Claim C7: after a change whose content was emitted as input and cached,
setting the value prop to that same content replaces nothing: the component
state is returned unchanged. -/
theorem value_echo_no_replacement {Schema : Type} (content : String)
    (s : EditorState Schema) :
    watchValue content (applyChange content s) = applyChange content s := by
  simp [watchValue, applyChange, parseContentsCall]

/-- Claim C8 counterexample: with a schema installed, a validator throw that
carries no source location is not recovered: the catch clause dereferences the
missing first location, itself throws, and the pass propagates an exception to
the host instead of surfacing a diagnostic. -/
theorem unlocated_error_escapes :
    debounceElapse throwingSvc (parseContentsCall "q" c8State) =
      .error locTypeError :=
  rfl

/-- Claim C8 amended: every error thrown during the pass that carries at least
one source location, including a validator throw, is recovered locally into a
singleton diagnostic; only an error without any location escapes the catch
clause. -/
theorem located_throw_recovered {Schema Doc : Type}
    (svc : GqlService Schema Doc) (content : String) (s : EditorState Schema)
    (doc : Doc) (sch : Schema) (e : GqlError) (l : Loc) (rest : List Loc)
    (hne : content ≠ "") (hp : svc.parse content = .ok doc)
    (hs : s.validationSchema = some sch) (hv : svc.validate sch doc = .error e)
    (hl : e.locations = l :: rest) :
    debounceElapse svc (parseContentsCall content s) =
      .ok { s with pendingParse := none, diags := [mkDiag l e.message] } := by
  simp [debounceElapse, parseContentsCall, parseContentsBody, catchClause,
        hne, hp, hs, hv, hl]

/-- Claim C8 amended, witness: a located validator throw on concrete state. -/
theorem located_throw_recovered_witness :
    debounceElapse locThrowSvc (parseContentsCall "q" c8State) =
      .ok { c8State with
              pendingParse := none,
              diags := [mkDiag { line := 2, column := 5 } "Unknown field"] } :=
  located_throw_recovered locThrowSvc "q" c8State () () vErr
    { line := 2, column := 5 } [] (by decide) rfl rfl rfl rfl

/-- Claim C9: when the buffer is canonical, that is printing its parse returns
the buffer itself, prettifyQuery emits the update-query event carrying exactly
the buffer text. -/
theorem prettify_idempotent_on_canonical {Schema Doc : Type}
    (svc : GqlService Schema Doc) (s : EditorState Schema) (doc : Doc)
    (hp : svc.parse s.buffer = .ok doc)
    (hpr : svc.printDoc doc = .ok s.buffer) :
    prettifyQuery svc s =
      { s with emittedUpdateQuery := s.emittedUpdateQuery ++ [s.buffer] } := by
  simp [prettifyQuery, hp, hpr]

/-- Claim C9 witness: the identity service on a canonical buffer. -/
theorem prettify_idempotent_witness :
    prettifyQuery idSvc c9State =
      { c9State with
          emittedUpdateQuery := c9State.emittedUpdateQuery ++ ["query q"] } :=
  prettify_idempotent_on_canonical idSvc c9State "query q" rfl rfl

/-- Claim C10: with no schema installed the completer returns no error and the
empty suggestion list, for every service, buffer and cursor position, so the
language service is never consulted. -/
theorem completions_empty_without_schema {Schema Doc : Type}
    (svc : GqlService Schema Doc) (s : EditorState Schema) (pos : Loc)
    (h : s.validationSchema = none) :
    getCompletions svc s pos = .ok [] := by
  simp [getCompletions, h]

/-- Claim C10 witness at the base state. -/
theorem completions_empty_witness :
    getCompletions okSvc baseState { line := 0, column := 0 } = .ok [] :=
  completions_empty_without_schema okSvc baseState
    { line := 0, column := 0 } rfl

end GQLEditor

namespace Firestore

/-- Claim C1: evaluating the policy at an authenticated identity with uid u1,
path users slash u2, operation update yields allow, because the catch-all rule
grants write to every authenticated identity and overlapping rules are
disjunctive; the claimed deny does not hold of the deployed rules. -/
theorem update_other_user_allowed :
    allows (some "u1") ["users", "u2"] Op.update = true := by
  decide

end Firestore
